import Mathlib

/-!
Verification development for the `qqgjyx` helper package.

The specified core consists of two components:

* the dataset splitter `split` in `src/qqgjyx/data/split.py`, and
* the range validator `ensure_between` in `src/qqgjyx/validator.py`.

Both are embedded shallowly below.  Python's arbitrary-precision integers
are modelled as `ℤ`/`ℕ`, its (duck-typed) ordered values as a `LinearOrder`,
the fraction `val_ratio` as an exact rational `ℚ`, and a raised exception
as the `Except.error` case of `Except PyError`.
-/

/-- A raised Python exception, identified by its class and message.
`nameError s` models `NameError: name 's' is not defined`;
`valueError s` models `ValueError` with message string `s`. -/
inductive PyError where
  | nameError : String → PyError
  | valueError : String → PyError
deriving DecidableEq

/-! ## RangeValidator — `src/qqgjyx/validator.py`

```python
def ensure_between(value: float, low: float, high: float, name: str = "value") -> float:
    if not (low <= value <= high):
        raise ValueError(f"{name} must be between {low} and {high}, got {value}")
    return value
```

Python's chained comparison `low <= value <= high` is the conjunction of
`low <= value` and `value <= high`.  The function is duck-typed: it works
for any linearly ordered values; the f-string delegates rendering of the
three values to their own formatting, modelled by the `render` argument
(at `ℤ`, `toString` renders exactly as Python renders an `int`).  The
`name` parameter defaults to `"value"` in the source; the embedding takes
it explicitly. -/

def ensure_between {α : Type} [LinearOrder α] (render : α → String)
    (value low high : α) (name : String) : Except PyError α :=
  if ¬ (low ≤ value ∧ value ≤ high) then
    Except.error (PyError.valueError
      (name ++ " must be between " ++ render low ++ " and " ++ render high
        ++ ", got " ++ render value))
  else
    Except.ok value

/-! ## Splitter — `src/qqgjyx/data/split.py`

```python
from typing import Tuple                                   # line 3
from torch.utils.data import Dataset, random_split         # line 5

def split(train_set, val_ratio=0.2, seed=42):              # line 8
    train_set_size = int(len(train_set) * (1 - val_ratio)) # line 26
    val_set_size = len(train_set) - train_set_size         # line 27
    generator = torch.Generator().manual_seed(seed)        # line 28
    train_subset, val_subset = random_split(
        train_set, [train_set_size, val_set_size], generator=generator
    )
    return train_subset, val_subset                        # line 32

__all__ = ["split"]                                        # line 35
train_val_split = split                                    # line 38
```

The dataset enters the computation only through `len(train_set)`, so the
embedding takes its length `N : ℕ` directly; the returned `Subset` views
are modelled by their index lists into the dataset. -/

/-- Python `int()` applied to an exact rational: truncation toward zero
(`Int.tdiv` is Lean's toward-zero division). -/
def pyInt (q : ℚ) : ℤ := Int.tdiv q.num q.den

/-- The names bound in the module namespace of `src/qqgjyx/data/split.py`
once the module is loaded: `from typing import Tuple` (line 3) binds
`Tuple`; `from torch.utils.data import Dataset, random_split` (line 5)
binds exactly the names `Dataset` and `random_split` — not `torch`; the
`def` on line 8 binds `split`; lines 35 and 38 bind `__all__` and
`train_val_split`. -/
def splitModuleNames : List String :=
  ["Tuple", "Dataset", "random_split", "split", "__all__", "train_val_split"]

/-- The local names bound inside the body of `split` by the time line 28
executes: the three parameters and the two assignments of lines 26–27. -/
def splitLocalNames : List String :=
  ["train_set", "val_ratio", "seed", "train_set_size", "val_set_size"]

/-- The Python builtins the body of `split` could resolve a bare name
against (the body uses `int` and `len`). -/
def pyBuiltinNames : List String := ["int", "len", "print", "range", "isinstance"]

/-- Python name resolution for a bare name inside the body of `split`:
locals, then module globals, then builtins.  A name resolving nowhere
raises `NameError` at evaluation time. -/
def resolvesInSplit (n : String) : Bool :=
  splitLocalNames.contains n || splitModuleNames.contains n || pyBuiltinNames.contains n

/-- Modelled from the spec: the seeded pseudo-random generator
(`torch.Generator().manual_seed(seed)` is external library code, not part
of this repository).  The spec requires only "a deterministic, seedable
source of reproducible randomness"; a 64-bit linear congruential step. -/
def lcg (s : ℕ) : ℕ := (6364136223846793005 * s + 1442695040888963407) % 18446744073709551616

/-- Fisher–Yates-style extraction shuffle driven by `lcg`: at each step the
element at pseudo-random position `s % length` is moved to the front and
removed.  The fuel argument is initialised to the list's length. -/
def shuffleGo : ℕ → ℕ → List ℕ → List ℕ
  | 0, _, l => l
  | _ + 1, _, [] => []
  | fuel + 1, s, a :: t =>
    let x := (a :: t).get ⟨s % (a :: t).length, Nat.mod_lt _ (Nat.succ_pos t.length)⟩
    x :: shuffleGo fuel (lcg s) ((a :: t).erase x)

/-- Modelled from the spec: "Generate a permutation of the index range
[0, N) using a seeded pseudo-random generator initialized solely from
`seed`" — the `randperm` inside `torch.utils.data.random_split` is
external library code. -/
def randperm (N : ℕ) (seed : ℤ) : List ℕ :=
  shuffleGo N (Int.natAbs (seed % 18446744073709551616)) (List.range N)

/-- Modelled from the spec: `torch.utils.data.random_split` assigns the
first `train_count` permuted indices to the train view and the next
`val_count` to the validation view. -/
def random_split_model (N : ℕ) (train_count val_count : ℤ) (seed : ℤ) :
    List ℕ × List ℕ :=
  let p := randperm N seed
  (p.take train_count.toNat, (p.drop train_count.toNat).take val_count.toNat)

/-- Embedding of `split` from `src/qqgjyx/data/split.py` (lines 26–32),
called on a dataset of length `N`.  Lines 26–27 compute the two sizes;
line 28 then evaluates the bare name `torch`, which resolves neither in
the locals, nor in the module namespace (line 5 imports only
`Dataset` and `random_split` from `torch.utils.data`), nor in the
builtins — so evaluation raises `NameError` there.  The (unreachable)
success branch carries the `random_split` call of lines 29–31. -/
def split (N : ℕ) (val_ratio : ℚ) (seed : ℤ) : Except PyError (List ℕ × List ℕ) :=
  let train_set_size : ℤ := pyInt ((N : ℚ) * (1 - val_ratio))
  let val_set_size : ℤ := (N : ℤ) - train_set_size
  if resolvesInSplit "torch" then
    Except.ok (random_split_model N train_set_size val_set_size seed)
  else
    Except.error (PyError.nameError "torch")

/-- Modelled from the spec (§4.1) and from the working duplicate
`train_val_split` in `src/qqgjyx/utils.py` (lines 109–115), whose body is
identical to `split` but whose module does `import torch` (line 15): the
split as intended, with the missing import in place. -/
def splitIntended (N : ℕ) (val_ratio : ℚ) (seed : ℤ) : List ℕ × List ℕ :=
  let train_set_size : ℤ := pyInt ((N : ℚ) * (1 - val_ratio))
  random_split_model N train_set_size ((N : ℤ) - train_set_size) seed

/-! ## General lemmas -/

/-- On nonnegative arguments Python's `int()` truncation coincides with the
mathematical floor. -/
theorem pyInt_eq_floor {q : ℚ} (hq : 0 ≤ q) : pyInt q = ⌊q⌋ := by
  rw [Rat.floor_def, pyInt]
  exact Int.tdiv_eq_ediv (Rat.num_nonneg.mpr hq) (Int.ofNat_nonneg _)

/-- The extraction shuffle returns a permutation of its input, for any fuel
and any seed. -/
theorem shuffleGo_perm (fuel : ℕ) : ∀ (s : ℕ) (l : List ℕ), (shuffleGo fuel s l).Perm l := by
  induction fuel with
  | zero => exact fun s l => List.Perm.refl l
  | succ n ih =>
    intro s l
    cases l with
    | nil => exact List.Perm.refl []
    | cons a t =>
      simp only [shuffleGo]
      exact ((ih (lcg s) _).cons _).trans (List.perm_cons_erase (List.get_mem _ _ _)).symm

/-- The modelled generator produces a genuine permutation of the index
range `[0, N)`, as the spec requires of the external generator. -/
theorem randperm_perm (N : ℕ) (seed : ℤ) : (randperm N seed).Perm (List.range N) :=
  shuffleGo_perm N _ _

/-- Coverage of the intended split: the concatenation of the two index
views is a permutation of the full index range `[0, N)`. -/
theorem splitIntended_cover (N : ℕ) (r : ℚ) (s : ℤ) (h0 : 0 ≤ r) (h1 : r ≤ 1) :
    ((splitIntended N r s).1 ++ (splitIntended N r s).2).Perm (List.range N) := by
  have hq : (0 : ℚ) ≤ (N : ℚ) * (1 - r) := mul_nonneg (Nat.cast_nonneg N) (by linarith)
  have ht0 : 0 ≤ pyInt ((N : ℚ) * (1 - r)) := by
    rw [pyInt_eq_floor hq]; exact Int.floor_nonneg.mpr hq
  have htN : pyInt ((N : ℚ) * (1 - r)) ≤ (N : ℤ) := by
    rw [pyInt_eq_floor hq]
    calc ⌊(N : ℚ) * (1 - r)⌋ ≤ ⌊(N : ℚ)⌋ := by
          apply Int.floor_le_floor; nlinarith [Nat.cast_nonneg (α := ℚ) N]
    _ = (N : ℤ) := Int.floor_natCast N
  have hp : (randperm N s).Perm (List.range N) := randperm_perm N s
  have hlen : (randperm N s).length = N := hp.length_eq.trans (List.length_range N)
  simp only [splitIntended, random_split_model]
  have hkt : (pyInt ((N : ℚ) * (1 - r))).toNat ≤ N := by omega
  have h2 : ((N : ℤ) - pyInt ((N : ℚ) * (1 - r))).toNat
      = N - (pyInt ((N : ℚ) * (1 - r))).toNat := by omega
  have h3 : List.take (N - (pyInt ((N : ℚ) * (1 - r))).toNat)
        (List.drop (pyInt ((N : ℚ) * (1 - r))).toNat (randperm N s))
      = List.drop (pyInt ((N : ℚ) * (1 - r))).toNat (randperm N s) :=
    List.take_of_length_le (by rw [List.length_drop, hlen])
  rw [h2, h3, List.take_append_drop]
  exact hp

/-- The sizes of the two intended views sum to `N`. -/
theorem splitIntended_sizes_sum (N : ℕ) (r : ℚ) (s : ℤ) (h0 : 0 ≤ r) (h1 : r ≤ 1) :
    (splitIntended N r s).1.length + (splitIntended N r s).2.length = N := by
  have h := (splitIntended_cover N r s h0 h1).length_eq
  simpa [List.length_append, List.length_range] using h

/-- The two intended views are disjoint index sets. -/
theorem splitIntended_disjoint (N : ℕ) (r : ℚ) (s : ℤ) (h0 : 0 ≤ r) (h1 : r ≤ 1) :
    List.Disjoint (splitIntended N r s).1 (splitIntended N r s).2 := by
  have hn : ((splitIntended N r s).1 ++ (splitIntended N r s).2).Nodup :=
    ((splitIntended_cover N r s h0 h1).symm).nodup (List.nodup_range N)
  exact (List.nodup_append.mp hn).2.2

/-- Python `int()` is the identity on (casts of) natural numbers. -/
theorem pyInt_natCast (N : ℕ) : pyInt (N : ℚ) = N := by
  simp [pyInt]

/-- The train view of the intended split has exactly
`floor(N * (1 - val_ratio))` elements — under exact rational arithmetic. -/
theorem splitIntended_train_length (N : ℕ) (r : ℚ) (s : ℤ) (h0 : 0 ≤ r) (h1 : r ≤ 1) :
    ((splitIntended N r s).1).length = (⌊(N : ℚ) * (1 - r)⌋).toNat := by
  have hq : (0 : ℚ) ≤ (N : ℚ) * (1 - r) := mul_nonneg (Nat.cast_nonneg N) (by linarith)
  have hlen : (randperm N s).length = N :=
    (randperm_perm N s).length_eq.trans (List.length_range N)
  have hle : ⌊(N : ℚ) * (1 - r)⌋ ≤ (N : ℤ) := by
    calc ⌊(N : ℚ) * (1 - r)⌋ ≤ ⌊(N : ℚ)⌋ := by
          apply Int.floor_le_floor; nlinarith [Nat.cast_nonneg (α := ℚ) N]
    _ = (N : ℤ) := Int.floor_natCast N
  simp only [splitIntended, random_split_model]
  rw [List.length_take, pyInt_eq_floor hq, hlen]
  omega

/-- Intended edge case `val_ratio = 0`: the validation view is empty. -/
theorem splitIntended_ratio_zero_val (N : ℕ) (s : ℤ) : (splitIntended N 0 s).2 = [] := by
  simp only [splitIntended, random_split_model]
  rw [show ((N : ℚ) * (1 - 0)) = (N : ℚ) by ring, pyInt_natCast]
  simp

/-- Intended edge case `val_ratio = 0`: the train view holds all `N` indices. -/
theorem splitIntended_ratio_zero_train (N : ℕ) (s : ℤ) :
    ((splitIntended N 0 s).1).Perm (List.range N) := by
  have hlen : (randperm N s).length = N :=
    (randperm_perm N s).length_eq.trans (List.length_range N)
  simp only [splitIntended, random_split_model]
  rw [show ((N : ℚ) * (1 - 0)) = (N : ℚ) by ring, pyInt_natCast]
  rw [show ((N : ℤ)).toNat = N from rfl, List.take_of_length_le (le_of_eq hlen)]
  exact randperm_perm N s

/-- Intended edge case `val_ratio = 1`: the train view is empty. -/
theorem splitIntended_ratio_one_train (N : ℕ) (s : ℤ) : (splitIntended N 1 s).1 = [] := by
  simp only [splitIntended, random_split_model]
  rw [show ((N : ℚ) * (1 - 1)) = ((0 : ℕ) : ℚ) by push_cast; ring, pyInt_natCast]
  simp

/-- Intended edge case `val_ratio = 1`: the validation view holds all `N` indices. -/
theorem splitIntended_ratio_one_val (N : ℕ) (s : ℤ) :
    ((splitIntended N 1 s).2).Perm (List.range N) := by
  have hlen : (randperm N s).length = N :=
    (randperm_perm N s).length_eq.trans (List.length_range N)
  simp only [splitIntended, random_split_model]
  rw [show ((N : ℚ) * (1 - 1)) = ((0 : ℕ) : ℚ) by push_cast; ring, pyInt_natCast]
  simp only [Int.toNat_natCast, List.drop_zero, Int.sub_zero]
  rw [List.take_of_length_le (by rw [hlen]; omega)]
  exact randperm_perm N s

/-- Intended edge case `N = 0`: both views are empty, for every ratio and seed. -/
theorem splitIntended_empty (r : ℚ) (s : ℤ) : splitIntended 0 r s = ([], []) := by
  simp [splitIntended, random_split_model, randperm, shuffleGo]

/-! ## Claim theorems

`split` in `src/qqgjyx/data/split.py` never reaches its `random_split`
call: line 28 evaluates the unbound name `torch` and raises `NameError`
on every input.  The module's own docstring ("Returns ... The training
and validation datasets."), the duplicate `train_val_split` in
`src/qqgjyx/utils.py` (whose module does `import torch`), and the test
suite (`test_comprehensive.py::TestDataModule` asserts concrete view
sizes from `qqgjyx.data.split`) all show that returning the two views is
the intent; the missing import is a slip in the code. -/

/-- Claim C4: every call to the canonical `split` in `qqgjyx.data` — for
any dataset length `N`, any `val_ratio`, any `seed`, including `N = 0` —
raises a `NameError` before returning any result, because line 28
references `torch.Generator()` while line 5 imports only
`torch.utils.data` names, leaving `torch` unbound in the module. -/
theorem split_always_raises_nameError (N : ℕ) (val_ratio : ℚ) (seed : ℤ) :
    split N val_ratio seed = Except.error (PyError.nameError "torch") := rfl

/-- Claim C1 (code bug): the claim states that the two views returned by
`split` are disjoint index sets covering `[0, N)`; evaluated on a
dataset of length 5 with `val_ratio = 1/5` and `seed = 42`, the code
instead raises `NameError: name 'torch' is not defined` and returns no
views at all. -/
theorem split_returns_no_views_at_5 :
    split 5 (1/5) 42 = Except.error (PyError.nameError "torch") := rfl

/-- Claim C2 (code bug): the claim states that two calls with identical
`(N, val_ratio, seed)` produce identical index partitions; evaluated at
`N = 7`, `val_ratio = 1/2`, `seed = 0`, the code raises `NameError` and
produces no partition, so no call ever produces one. -/
theorem split_produces_no_partition_at_7 :
    split 7 (1/2) 0 = Except.error (PyError.nameError "torch") := rfl

/-- Claim C3 (code bug): the claim states
`len(train_view) + len(val_view) == N`; evaluated at `N = 10`,
`val_ratio = 3/10`, `seed = 1`, the code raises `NameError` and returns
no views whose sizes could sum to 10. -/
theorem split_returns_no_sizes_at_10 :
    split 10 (3/10) 1 = Except.error (PyError.nameError "torch") := rfl

/-- Claim C5 (code bug): the claim states that the train view has exactly
`floor(N * (1 - val_ratio))` elements; evaluated at `N = 10`,
`val_ratio = 1/10`, `seed = 42`, the code raises `NameError` and returns
no train view (for the intended behaviour under exact arithmetic see
`splitIntended_train_length`). -/
theorem split_returns_no_train_view_at_10 :
    split 10 (1/10) 42 = Except.error (PyError.nameError "torch") := rfl

/-- Claim C6 (code bug): the claim states that a dataset with `N = 0`
yields two empty views without raising any error; evaluated at `N = 0`,
`val_ratio = 0`, `seed = 42`, the code raises
`NameError: name 'torch' is not defined` instead (for the intended
edge-case behaviour see `splitIntended_empty`, `splitIntended_ratio_zero_val`
and `splitIntended_ratio_one_train`). -/
theorem split_raises_on_empty_dataset :
    split 0 0 42 = Except.error (PyError.nameError "torch") := rfl

/-- Claim C9 (code bug): the claim states that `split` builds index-based
views into the dataset and consumes randomness only from a freshly
created locally-seeded generator; evaluated at `N = 3`,
`val_ratio = 1/4`, `seed = 7`, the code raises `NameError` before any
generator is created, so no views are built and no randomness is
consumed at all. -/
theorem split_builds_nothing_at_3 :
    split 3 (1/4) 7 = Except.error (PyError.nameError "torch") := rfl

/-- Claim C7: `ensure_between` fails exactly when
`not (low <= value <= high)`, and the raised error — the spec's
`RangeError`, realised in the source as Python's `ValueError` — carries
precisely the message `"<name> must be between <low> and <high>, got
<value>"` with the field name, the bounds, and the offending value. -/
theorem ensure_between_error_characterisation {α : Type} [LinearOrder α]
    (render : α → String) (value low high : α) (name : String) (e : PyError) :
    ensure_between render value low high name = Except.error e
      ↔ ¬ (low ≤ value ∧ value ≤ high)
        ∧ e = PyError.valueError (name ++ " must be between " ++ render low
            ++ " and " ++ render high ++ ", got " ++ render value) := by
  by_cases h : low ≤ value ∧ value ≤ high
  · simp [ensure_between, h]
  · simp only [ensure_between, if_pos h, Except.error.injEq]
    exact ⟨fun he => ⟨h, he.symm⟩, fun he => he.2.symm⟩

/-- Claim C8: whenever `low ≤ value ≤ high`, `ensure_between` returns
`value` unchanged (identity on success), for any field name; in
particular the bounds are inclusive. -/
theorem ensure_between_identity {α : Type} [LinearOrder α]
    (render : α → String) (value low high : α) (name : String)
    (h1 : low ≤ value) (h2 : value ≤ high) :
    ensure_between render value low high name = Except.ok value := by
  simp [ensure_between, h1, h2]

/-- Witness for C8 at the spec's three concrete examples:
`ensure_between(5, 0, 10) == 5`, `ensure_between(0, 0, 10) == 0`,
`ensure_between(10, 0, 10) == 10`. -/
theorem ensure_between_identity_witness :
    ensure_between toString (5 : ℤ) 0 10 "value" = Except.ok 5
      ∧ ensure_between toString (0 : ℤ) 0 10 "value" = Except.ok 0
      ∧ ensure_between toString (10 : ℤ) 0 10 "value" = Except.ok 10 :=
  ⟨ensure_between_identity toString 5 0 10 "value" (by decide) (by decide),
   ensure_between_identity toString 0 0 10 "value" (by decide) (by decide),
   ensure_between_identity toString 10 0 10 "value" (by decide) (by decide)⟩

/-- Claim C10: when `low > high` no value can satisfy
`low ≤ value ≤ high`, so `ensure_between` fails unconditionally, with
the same message format as always. -/
theorem ensure_between_inverted_bounds {α : Type} [LinearOrder α]
    (render : α → String) (value low high : α) (name : String) (h : high < low) :
    ensure_between render value low high name
      = Except.error (PyError.valueError (name ++ " must be between " ++ render low
          ++ " and " ++ render high ++ ", got " ++ render value)) := by
  have hc : ¬ (low ≤ value ∧ value ≤ high) :=
    fun hc => absurd (hc.1.trans hc.2) (not_le.mpr h)
  simp [ensure_between, hc]

/-- Witness for C10: with the bounds inverted to `low = 10 > 0 = high`,
the in-range value 5 is still rejected, with the fixed message. -/
theorem ensure_between_inverted_bounds_witness :
    ensure_between toString (5 : ℤ) 10 0 "value"
      = Except.error (PyError.valueError "value must be between 10 and 0, got 5") :=
  ensure_between_inverted_bounds toString 5 10 0 "value" (by decide)
